import Mathlib

/-
Verification development for the FGD lexer and recursive-descent parser
(src/source2/utils/fgd_parser.py).  The lexer and parser are shallowly
embedded as fuel-indexed total functions; `PRes.spin` / `R.spin` marks fuel
exhaustion, which for the loops below coincides with genuine divergence of
the Python code (the modelled loops either consume input or loop forever).
-/

namespace FGD

/-- Token kinds, mirroring the `FGDToken` enumeration of the source. -/
inductive FKind
  | STRING | NUMERIC | IDENTIFIER | KEYWORD
  | LPAREN | RPAREN | LBRACKET | RBRACKET | LBRACE | RBRACE
  | EQUALS | COLON | PLUS | MINUS | COMMA | DOT | FSLASH | BSLASH
  | EOF
deriving DecidableEq

/-- Tokens with their payloads: the lexer yields `(kind, value)` pairs where
string/identifier/keyword tokens carry strings and numeric tokens carry the
parsed integer. -/
inductive FTok
  | STRING (s : String)
  | NUMERIC (v : Int)
  | IDENTIFIER (s : String)
  | KEYWORD (s : String)
  | LPAREN | RPAREN | LBRACKET | RBRACKET | LBRACE | RBRACE
  | EQUALS | COLON | PLUS | MINUS | COMMA | DOT | FSLASH | BSLASH
  | EOF
deriving DecidableEq

def FTok.kind : FTok → FKind
  | .STRING _ => .STRING
  | .NUMERIC _ => .NUMERIC
  | .IDENTIFIER _ => .IDENTIFIER
  | .KEYWORD _ => .KEYWORD
  | .LPAREN => .LPAREN
  | .RPAREN => .RPAREN
  | .LBRACKET => .LBRACKET
  | .RBRACKET => .RBRACKET
  | .LBRACE => .LBRACE
  | .RBRACE => .RBRACE
  | .EQUALS => .EQUALS
  | .COLON => .COLON
  | .PLUS => .PLUS
  | .MINUS => .MINUS
  | .COMMA => .COMMA
  | .DOT => .DOT
  | .FSLASH => .FSLASH
  | .BSLASH => .BSLASH
  | .EOF => .EOF

/-- Dynamic Python values carried by token payloads: strings, integers, or
`None` (punctuation tokens carry their own character as a string, as the
source yields `self.advance()` for them). -/
inductive PVal
  | str (s : String)
  | num (v : Int)
  | null
deriving DecidableEq

/-- `(token, value)[1]` as used by `self.advance()[1]` call sites. -/
def FTok.val : FTok → PVal
  | .STRING s => .str s
  | .NUMERIC v => .num v
  | .IDENTIFIER s => .str s
  | .KEYWORD s => .str s
  | .LPAREN => .str "("
  | .RPAREN => .str ")"
  | .LBRACKET => .str "["
  | .RBRACKET => .str "]"
  | .LBRACE => .str "\x7b"
  | .RBRACE => .str "\x7d"
  | .EQUALS => .str "="
  | .COLON => .str ":"
  | .PLUS => .str "+"
  | .MINUS => .str "-"
  | .COMMA => .str ","
  | .DOT => .str "."
  | .FSLASH => .str "/"
  | .BSLASH => .str "\\"
  | .EOF => .null

/-- Errors: `FGDLexerException` (unknown symbol), Python `ValueError` from
`int(...)`, `FGDParserException` (mismatched `expect`, unexpected top-level
token), and `StopIteration` from pulling past the exhausted generator. -/
inductive Err
  | unknownSymbol (c : Char)
  | valueError (s : String)
  | unexpected (expected : FKind) (got : FTok)
  | topUnexpected (t : FTok)
  | stopIteration
deriving DecidableEq

/-- Result of a whole computation: value, raised error, or divergence
(fuel exhausted; the modelled loops otherwise consume input). -/
inductive PRes (α : Type)
  | ok (a : α)
  | err (e : Err)
  | spin
deriving DecidableEq

/-- Result of a token-consuming parser step: value plus remaining tokens. -/
inductive R (α : Type)
  | ok (a : α) (rest : List FTok)
  | err (e : Err)
  | spin
deriving DecidableEq

def R.bind {α β : Type} : R α → (α → List FTok → R β) → R β
  | .ok a rest, f => f a rest
  | .err e, _ => .err e
  | .spin, _ => .spin

@[simp] theorem R.bind_ok {α β : Type} (a : α) (rest : List FTok)
    (f : α → List FTok → R β) : (R.ok a rest).bind f = f a rest := rfl

@[simp] theorem R.bind_err {α β : Type} (e : Err) (f : α → List FTok → R β) :
    (R.err e : R α).bind f = .err e := rfl

@[simp] theorem R.bind_spin {α β : Type} (f : α → List FTok → R β) :
    (R.spin : R α).bind f = .spin := rfl

/- ## Character classification (ASCII model of the `str` predicates) -/

def pyIsSpace (c : Char) : Bool :=
  c = ' ' || c = '\t' || c = '\n' || c = '\r' || c = '\x0b' || c = '\x0c'

def pyIsDigit (c : Char) : Bool := '0' ≤ c && c ≤ '9'

/-- Python `str.isidentifier()` applied to a single character. -/
def pyIsIdent (c : Char) : Bool := c.isAlpha || c = '_'

def optIs (p : Char → Bool) : Option Char → Bool
  | some c => p c
  | none => false

def optEq (c : Char) : Option Char → Bool
  | some c2 => c2 = c
  | none => false

def pyLowerChar (c : Char) : Char :=
  if 'A' ≤ c ∧ c ≤ 'Z' then Char.ofNat (c.toNat + 32) else c

/-- Python `str.lower()` (ASCII model). -/
def pyLower (s : String) : String := String.mk (s.toList.map pyLowerChar)

def startsList : List Char → List Char → Bool
  | [], _ => true
  | _ :: _, [] => false
  | a :: as, b :: bs => if a = b then startsList as bs else false

/-- Python `str.startswith`. -/
def strStarts (s t : String) : Bool := startsList t.toList s.toList

/-- Python `str.endswith`. -/
def strEnds (s t : String) : Bool := startsList t.toList.reverse s.toList.reverse

def containsList (needle : List Char) : List Char → Bool
  | [] => startsList needle []
  | c :: rest => startsList needle (c :: rest) || containsList needle rest

/-- Python `needle in hay` substring test. -/
def strContains (hay needle : String) : Bool := containsList needle.toList hay.toList

/-- `int(s)` for the digit/minus buffers produced by the numeric rule:
`some` of the value, or `none` when Python raises `ValueError`. -/
def digitsVal (s : List Char) : Nat := s.foldl (fun a c => a * 10 + (c.toNat - 48)) 0

def pyInt : List Char → Option Int
  | [] => Option.none
  | '-' :: rest =>
    if rest ≠ [] ∧ rest.all pyIsDigit then some (-(digitsVal rest : Int)) else Option.none
  | s => if s.all pyIsDigit then some ((digitsVal s : Int)) else Option.none

/- ## Lexer (`FGDLexer.lex`)

The buffer is a `List Char` with the running offset; `sym buf off` models
`self.symbol` (`none` is Python's `""` once the offset passes the end —
note that `advance` keeps incrementing the offset regardless). -/

/-- `self.symbol`: the character at the offset, or none past the end. -/
def sym (buf : List Char) (off : Nat) : Option Char := buf.get? off

/-- The string-literal scanning loop (source lines 91-95): entered after the
opening quote was consumed; breaks only on a closing quote, otherwise
advances the offset — also past the end of the buffer. -/
def scanString : Nat → List Char → Nat → List Char → PRes (List Char × Nat)
  | 0, _, _, _ => .spin
  | n + 1, buf, off, acc =>
    match sym buf off with
    | some c => if c = '\"' then .ok (acc, off + 1) else scanString n buf (off + 1) (acc ++ [c])
    | none => scanString n buf (off + 1) acc

/-- Continuation condition of the numeric rule (source line 101). -/
def numCond (buf : List Char) (off : Nat) : Bool :=
  optIs pyIsDigit (sym buf off) ||
    (optEq '-' (sym buf off) && optIs pyIsDigit (sym buf (off + 1)))

def scanNumeric : Nat → List Char → Nat → List Char → PRes (List Char × Nat)
  | 0, _, _, _ => .spin
  | n + 1, buf, off, acc =>
    if numCond buf off then
      match sym buf off with
      | some c => scanNumeric n buf (off + 1) (acc ++ [c])
      | none => scanNumeric n buf (off + 1) acc
    else .ok (acc, off)

/-- Identifier continuation loop (source lines 106-109). -/
def scanIdent : Nat → List Char → Nat → List Char → PRes (List Char × Nat)
  | 0, _, _, _ => .spin
  | n + 1, buf, off, acc =>
    let s := sym buf off
    if optIs pyIsSpace s || !(optIs pyIsIdent s || optIs pyIsDigit s) then .ok (acc, off)
    else
      match s with
      | some c => scanIdent n buf (off + 1) (acc ++ [c])
      | none => scanIdent n buf (off + 1) acc

/-- Keyword continuation loop (source lines 113-116): only
identifier-leading characters continue a keyword. -/
def scanKeyword : Nat → List Char → Nat → List Char → PRes (List Char × Nat)
  | 0, _, _, _ => .spin
  | n + 1, buf, off, acc =>
    let s := sym buf off
    if optIs pyIsSpace s || !(optIs pyIsIdent s) then .ok (acc, off)
    else
      match s with
      | some c => scanKeyword n buf (off + 1) (acc ++ [c])
      | none => scanKeyword n buf (off + 1) acc

/-- Line-comment loop (source lines 119-122): breaks only at a newline,
otherwise advances — also past the end of the buffer. -/
def scanLineComment : Nat → List Char → Nat → PRes Nat
  | 0, _, _ => .spin
  | n + 1, buf, off =>
    if optEq '\n' (sym buf off) then .ok off
    else scanLineComment n buf (off + 1)

/-- Block-comment loop (source lines 125-129): entered after `/*` was
consumed; breaks only at `*/`. -/
def scanBlockComment : Nat → List Char → Nat → PRes Nat
  | 0, _, _ => .spin
  | n + 1, buf, off =>
    if optEq '*' (sym buf off) && optEq '/' (sym buf (off + 1)) then .ok (off + 2)
    else scanBlockComment n buf (off + 1)

/-- The main lexer loop (`FGDLexer.lex`), one fuel tick per outer iteration.
Branches in exactly the order of the source's `elif` chain. -/
def lexLoop : Nat → List Char → Nat → List FTok → PRes (List FTok)
  | 0, _, _, _ => .spin
  | n + 1, buf, off, acc =>
    match sym buf off with
    | none => .ok (acc ++ [FTok.EOF])
    | some c =>
      if c = '\"' then
        match scanString n buf (off + 1) [] with
        | .ok (s, off2) => lexLoop n buf off2 (acc ++ [FTok.STRING (String.mk s)])
        | .err e => .err e
        | .spin => .spin
      else if pyIsSpace c then lexLoop n buf (off + 1) acc
      else if pyIsDigit c || (c = '-' && optIs pyIsDigit (sym buf (off + 1))) then
        match scanNumeric n buf off [] with
        | .ok (s, off2) =>
          match pyInt s with
          | some v => lexLoop n buf off2 (acc ++ [FTok.NUMERIC v])
          | Option.none => .err (.valueError (String.mk s))
        | .err e => .err e
        | .spin => .spin
      else if pyIsIdent c then
        match scanIdent n buf (off + 1) [c] with
        | .ok (s, off2) => lexLoop n buf off2 (acc ++ [FTok.IDENTIFIER (String.mk s)])
        | .err e => .err e
        | .spin => .spin
      else if c = '@' && optIs pyIsIdent (sym buf (off + 1)) then
        match scanKeyword n buf (off + 1) ['@'] with
        | .ok (s, off2) => lexLoop n buf off2 (acc ++ [FTok.KEYWORD (String.mk s)])
        | .err e => .err e
        | .spin => .spin
      else if c = '/' && optEq '/' (sym buf (off + 1)) then
        match scanLineComment n buf off with
        | .ok off2 => lexLoop n buf off2 acc
        | .err e => .err e
        | .spin => .spin
      else if c = '/' && optEq '*' (sym buf (off + 1)) then
        match scanBlockComment n buf (off + 2) with
        | .ok off2 => lexLoop n buf off2 acc
        | .err e => .err e
        | .spin => .spin
      else if c = '{' then lexLoop n buf (off + 1) (acc ++ [FTok.LBRACE])
      else if c = '}' then lexLoop n buf (off + 1) (acc ++ [FTok.RBRACE])
      else if c = '(' then lexLoop n buf (off + 1) (acc ++ [FTok.LPAREN])
      else if c = ')' then lexLoop n buf (off + 1) (acc ++ [FTok.RPAREN])
      else if c = '[' then lexLoop n buf (off + 1) (acc ++ [FTok.LBRACKET])
      else if c = ']' then lexLoop n buf (off + 1) (acc ++ [FTok.RBRACKET])
      else if c = '=' then lexLoop n buf (off + 1) (acc ++ [FTok.EQUALS])
      else if c = ':' then lexLoop n buf (off + 1) (acc ++ [FTok.COLON])
      else if c = '-' then lexLoop n buf (off + 1) (acc ++ [FTok.MINUS])
      else if c = '+' then lexLoop n buf (off + 1) (acc ++ [FTok.PLUS])
      else if c = ',' then lexLoop n buf (off + 1) (acc ++ [FTok.COMMA])
      else if c = '.' then lexLoop n buf (off + 1) (acc ++ [FTok.DOT])
      else if c = '/' then lexLoop n buf (off + 1) (acc ++ [FTok.FSLASH])
      else if c = '\\' then lexLoop n buf (off + 1) (acc ++ [FTok.BSLASH])
      else .err (.unknownSymbol c)

/-- Lex a whole buffer (the token sequence of `FGDLexer.lex`, EOF last). -/
def lexAll (n : Nat) (s : String) : PRes (List FTok) := lexLoop n s.toList 0 []

/- ## Document model

Python dicts are modelled as insertion-ordered association lists with
last-write-wins semantics (`upsert` keeps the original position of an
existing key, like a CPython dict update). -/

def upsert {κ α : Type} [DecidableEq κ] (k : κ) (v : α) :
    List (κ × α) → List (κ × α)
  | [] => [(k, v)]
  | (k2, v2) :: rest => if k2 = k then (k, v) :: rest else (k2, v2) :: upsert k v rest

def lookupA {κ α : Type} [DecidableEq κ] (k : κ) : List (κ × α) → Option α
  | [] => Option.none
  | (k2, v2) :: rest => if k2 = k then some v2 else lookupA k rest

/-- One value of a class `meta_props` dict entry. -/
inductive MetaPropVal
  | flag
  | color (r g b : Int)
  | strMap (m : List (String × String))
  | toks (l : List PVal)
deriving DecidableEq

/-- One value of a property `meta` dict entry (`name="value"` or bare flag). -/
inductive PMetaVal
  | str (s : String)
  | flag
deriving DecidableEq

/-- An entry of a class `io` dict. -/
structure IoEntry where
  type : String
  args : List String
  doc : Option String
deriving DecidableEq

/-- A property dict as assembled by `_parse_class_param`.  Keys added only
conditionally in the source (`meta`, the three enumerations) are `Option`
fields, `none` meaning the key is absent.  `name` is a `PVal` because the
source rebinds `name` inside the choices/flags/tag_list loops, where a
choices key may be an integer. -/
structure FProp where
  name : PVal
  type : String
  meta : Option (List (String × PMetaVal))
  data : List (Option PVal)
  choices : Option (List (PVal × String))
  flags : Option (List (String × Int × Int))
  tag_list : Option (List (String × String × Int))
deriving DecidableEq

/-- A class definition dict as assembled by `_parse_baseclass`. -/
structure ClassDef where
  io : List (String × IoEntry)
  props : List (PVal × FProp)
  bases : List String
  meta_props : List (String × MetaPropVal)
  name : String
  doc : Option String
deriving DecidableEq

structure EntityGroup where
  name : String
  meta : List (String × String)
deriving DecidableEq

/-- The parser's accumulated output (`FGDParser` attributes). -/
structure Document where
  classes : List ClassDef
  excludes : List String
  pragmas : List (String × (Int × Int))
  includes : List String
  entity_groups : List EntityGroup
deriving DecidableEq

def emptyDoc : Document := ⟨[], [], [], [], []⟩

/-- The external include resolver (`ContentManager().find_file` plus ASCII
decode): logical name to file content, or not-found. -/
abbrev Resolver := String → Option String

/- ## Parser primitives (`peek` / `advance` / `expect` / `match`)

The parser is modelled over the token list produced by the lexer; reading
past the end of the list is Python's `StopIteration` from the exhausted
generator. -/

def expectIdent : List FTok → R String
  | .IDENTIFIER s :: rest => .ok s rest
  | t :: _ => .err (.unexpected .IDENTIFIER t)
  | [] => .err .stopIteration

def expectStr : List FTok → R String
  | .STRING s :: rest => .ok s rest
  | t :: _ => .err (.unexpected .STRING t)
  | [] => .err .stopIteration

def expectNum : List FTok → R Int
  | .NUMERIC v :: rest => .ok v rest
  | t :: _ => .err (.unexpected .NUMERIC t)
  | [] => .err .stopIteration

def expectTok (k : FKind) : List FTok → R Unit
  | [] => .err .stopIteration
  | t :: rest => if t.kind = k then .ok () rest else .err (.unexpected k t)

/- ## Sub-parsers -/

/-- `_parse_joined_string` continuation: consume `+`, then a string if one
follows, else stop (the `+` stays consumed). -/
def joinLoop : Nat → List FTok → String → R String
  | 0, _, _ => .spin
  | n + 1, toks, acc =>
    match toks with
    | [] => .err .stopIteration
    | .PLUS :: rest =>
      match rest with
      | [] => .err .stopIteration
      | .STRING s :: rest2 => joinLoop n rest2 (acc ++ s)
      | _ => .ok acc rest
    | _ => .ok acc toks

def parseJoinedString (n : Nat) (toks : List FTok) : R String :=
  (expectStr toks).bind fun s rest => joinLoop n rest s

/-- `_parse_fully_qualified_identifier` continuation (dots). -/
def fqLoop : Nat → List FTok → String → R String
  | 0, _, _ => .spin
  | n + 1, toks, acc =>
    match toks with
    | [] => .err .stopIteration
    | .DOT :: rest =>
      (expectIdent rest).bind fun s rest2 => fqLoop n rest2 (acc ++ "." ++ s)
    | _ => .ok acc toks

/-- `_parse_complex_type` continuation (colons, joined with dots). -/
def complexLoop : Nat → List FTok → String → R String
  | 0, _, _ => .spin
  | n + 1, toks, acc =>
    match toks with
    | [] => .err .stopIteration
    | .COLON :: rest =>
      (expectIdent rest).bind fun s rest2 => complexLoop n rest2 (acc ++ "." ++ s)
    | _ => .ok acc toks

/-- `_parse_bases` comma-separated identifier loop. -/
def basesLoop : Nat → List FTok → List String → R (List String)
  | 0, _, _ => .spin
  | n + 1, toks, acc =>
    (expectIdent toks).bind fun s rest =>
      match rest with
      | [] => .err .stopIteration
      | .COMMA :: rest2 => basesLoop n rest2 (acc ++ [s])
      | _ => .ok (acc ++ [s]) rest

def parseBases (n : Nat) (toks : List FTok) : R (List String) :=
  (expectTok .LPAREN toks).bind fun _ r1 =>
  (basesLoop n r1 []).bind fun bs r2 =>
  (expectTok .RPAREN r2).bind fun _ r3 => .ok bs r3

/-- `_parse_class_io` argument loop: identifiers until the closing paren
(no comma handling in the source). -/
def ioArgsLoop : Nat → List FTok → List String → R (List String)
  | 0, _, _ => .spin
  | n + 1, toks, acc =>
    match toks with
    | [] => .err .stopIteration
    | .RPAREN :: rest => .ok acc (.RPAREN :: rest)
    | .IDENTIFIER s :: rest => ioArgsLoop n rest (acc ++ [s])
    | t :: _ => .err (.unexpected .IDENTIFIER t)

/-- `_parse_class_io`: returns the `(name, entry)` to record, or `none`
when the colon clause is absent and the entry is dropped. -/
def parseClassIo (n : Nat) (toks : List FTok) : R (Option (String × IoEntry)) :=
  (expectIdent toks).bind fun ioType r1 =>
  (expectIdent r1).bind fun nm r2 =>
  (expectTok .LPAREN r2).bind fun _ r3 =>
  (ioArgsLoop n r3 []).bind fun args r4 =>
  (expectTok .RPAREN r4).bind fun _ r5 =>
  match r5 with
  | [] => .err .stopIteration
  | .COLON :: r6 =>
    match r6 with
    | [] => .err .stopIteration
    | .STRING _ :: _ =>
      (parseJoinedString n r6).bind fun d r7 =>
        .ok (some (nm, ⟨ioType, args, some d⟩)) r7
    | _ => .ok (some (nm, ⟨ioType, args, Option.none⟩)) r6
  | _ => .ok Option.none r5

/-- `_parse_class_param_meta` loop (also consumes the closing bracket). -/
def metaLoop : Nat → List FTok → List (String × PMetaVal) → R (List (String × PMetaVal))
  | 0, _, _ => .spin
  | n + 1, toks, acc =>
    (expectIdent toks).bind fun nm r1 =>
    (match r1 with
     | [] => R.err .stopIteration
     | .EQUALS :: r2 => (expectStr r2).bind fun v r3 => R.ok (PMetaVal.str v) r3
     | _ => R.ok PMetaVal.flag r1
    ).bind fun v r3 =>
    let acc2 := upsert nm v acc
    match r3 with
    | [] => .err .stopIteration
    | .COMMA :: r4 => metaLoop n r4 acc2
    | _ => (expectTok .RBRACKET r3).bind fun _ r5 => .ok acc2 r5

/-- The colon-separated data loop of `_parse_class_param`. -/
def dataLoop : Nat → List FTok → List (Option PVal) → R (List (Option PVal))
  | 0, _, _ => .spin
  | n + 1, toks, acc =>
    match toks with
    | [] => .err .stopIteration
    | t :: _ =>
      if t.kind = .STRING ∨ t.kind = .NUMERIC ∨ t.kind = .COLON then
        (expectTok .COLON toks).bind fun _ r1 =>
        match r1 with
        | [] => .err .stopIteration
        | .COLON :: _ => dataLoop n r1 (acc ++ [Option.none])
        | .STRING _ :: _ =>
          (parseJoinedString n r1).bind fun s r2 =>
            dataLoop n r2 (acc ++ [some (.str s)])
        | t2 :: r2 => dataLoop n r2 (acc ++ [some t2.val])
      else .ok acc toks

/-- Choices enumeration loop; threads the rebound `name` variable. -/
def choicesLoop : Nat → List FTok → List (PVal × String) → PVal →
    R (List (PVal × String) × PVal)
  | 0, _, _, _ => .spin
  | n + 1, toks, acc, cur =>
    match toks with
    | [] => .err .stopIteration
    | .RBRACKET :: rest => .ok (acc, cur) (.RBRACKET :: rest)
    | .STRING s :: r1 =>
      (expectTok .COLON r1).bind fun _ r2 =>
      (expectStr r2).bind fun disp r3 =>
        choicesLoop n r3 (upsert (PVal.str s) disp acc) (PVal.str s)
    | .NUMERIC v :: r1 =>
      (expectTok .COLON r1).bind fun _ r2 =>
      (expectStr r2).bind fun disp r3 =>
        choicesLoop n r3 (upsert (PVal.num v) disp acc) (PVal.num v)
    | t :: _ => .err (.unexpected .NUMERIC t)

/-- Flags enumeration loop; threads the rebound `name` variable. -/
def flagsLoop : Nat → List FTok → List (String × Int × Int) → PVal →
    R (List (String × Int × Int) × PVal)
  | 0, _, _, _ => .spin
  | n + 1, toks, acc, cur =>
    match toks with
    | [] => .err .stopIteration
    | .RBRACKET :: rest => .ok (acc, cur) (.RBRACKET :: rest)
    | _ =>
      (expectNum toks).bind fun mask r1 =>
      (expectTok .COLON r1).bind fun _ r2 =>
      (expectStr r2).bind fun nm r3 =>
      (expectTok .COLON r3).bind fun _ r4 =>
      (expectNum r4).bind fun dflt r5 =>
        flagsLoop n r5 (upsert nm (mask, dflt) acc) (PVal.str nm)

/-- Tag-list enumeration loop; threads the rebound `name` variable. -/
def tagsLoop : Nat → List FTok → List (String × String × Int) → PVal →
    R (List (String × String × Int) × PVal)
  | 0, _, _, _ => .spin
  | n + 1, toks, acc, cur =>
    match toks with
    | [] => .err .stopIteration
    | .RBRACKET :: rest => .ok (acc, cur) (.RBRACKET :: rest)
    | _ =>
      (expectStr toks).bind fun mask r1 =>
      (expectTok .COLON r1).bind fun _ r2 =>
      (expectStr r2).bind fun nm r3 =>
      (expectTok .COLON r3).bind fun _ r4 =>
      (expectNum r4).bind fun dflt r5 =>
        tagsLoop n r5 (upsert nm (mask, dflt) acc) (PVal.str nm)

/-- Which of the three mutually exclusive enumerations was parsed. -/
inductive EnumPart
  | noneE
  | choicesE (cs : List (PVal × String))
  | flagsE (fs : List (String × Int × Int))
  | tagsE (ts : List (String × String × Int))
deriving DecidableEq

/-- `_parse_class_param`: returns the storage key and the property dict. -/
def parseClassParam (n : Nat) (toks : List FTok) : R (PVal × FProp) :=
  (expectIdent toks).bind fun p1 r0 =>
  (fqLoop n r0 p1).bind fun name0 r1 =>
  (expectTok .LPAREN r1).bind fun _ r2 =>
  (expectIdent r2).bind fun t1 r3 =>
  (complexLoop n r3 t1).bind fun ptype r4 =>
  (expectTok .RPAREN r4).bind fun _ r5 =>
  (match r5 with
   | [] => R.err .stopIteration
   | .LBRACKET :: r6 => (metaLoop n r6 []).bind fun m r7 => R.ok (some m) r7
   | _ => R.ok Option.none r5
  ).bind fun metaOpt r8 =>
  (match r8 with
   | [] => R.err .stopIteration
   | .COLON :: _ => dataLoop n r8 []
   | _ => R.ok [] r8
  ).bind fun data r9 =>
  (match r9 with
   | [] => R.err .stopIteration
   | .EQUALS :: r10 =>
     if strContains (pyLower ptype) "choices" then
       (expectTok .LBRACKET r10).bind fun _ r11 =>
       (choicesLoop n r11 [] (PVal.str name0)).bind fun cn r12 =>
       (expectTok .RBRACKET r12).bind fun _ r13 =>
         R.ok (EnumPart.choicesE cn.1, cn.2) r13
     else if strContains (pyLower ptype) "flags" then
       (expectTok .LBRACKET r10).bind fun _ r11 =>
       (flagsLoop n r11 [] (PVal.str name0)).bind fun fn r12 =>
       (expectTok .RBRACKET r12).bind fun _ r13 =>
         R.ok (EnumPart.flagsE fn.1, fn.2) r13
     else if strContains (pyLower ptype) "tag_list" then
       (expectTok .LBRACKET r10).bind fun _ r11 =>
       (tagsLoop n r11 [] (PVal.str name0)).bind fun tn r12 =>
       (expectTok .RBRACKET r12).bind fun _ r13 =>
         R.ok (EnumPart.tagsE tn.1, tn.2) r13
     else R.ok (EnumPart.noneE, PVal.str name0) (.EQUALS :: r10)
   | _ => R.ok (EnumPart.noneE, PVal.str name0) r9
  ).bind fun en r14 =>
  let prop : FProp :=
    { name := en.2, type := ptype, meta := metaOpt, data := data
      choices := match en.1 with | .choicesE cs => some cs | _ => Option.none
      flags := match en.1 with | .flagsE fs => some fs | _ => Option.none
      tag_list := match en.1 with | .tagsE ts => some ts | _ => Option.none }
  .ok (en.2, prop) r14

/-- `metadata { IDENT = "value" ... }` loop (closing brace left in place). -/
def mdLoop : Nat → List FTok → List (String × String) → R (List (String × String))
  | 0, _, _ => .spin
  | n + 1, toks, acc =>
    match toks with
    | [] => .err .stopIteration
    | .RBRACE :: rest => .ok acc (.RBRACE :: rest)
    | _ =>
      (expectIdent toks).bind fun k r1 =>
      (expectTok .EQUALS r1).bind fun _ r2 =>
      (expectStr r2).bind fun v r3 => mdLoop n r3 (upsert k v acc)

/-- Generic modifier `name(...)` loop: collect raw token values, skipping
one comma after each (source lines 297-300). -/
def genericLoop : Nat → List FTok → List PVal → R (List PVal)
  | 0, _, _ => .spin
  | n + 1, toks, acc =>
    match toks with
    | [] => .err .stopIteration
    | .RPAREN :: rest => .ok acc (.RPAREN :: rest)
    | t :: rest =>
      let acc2 := acc ++ [t.val]
      match rest with
      | [] => .err .stopIteration
      | .COMMA :: rest2 => genericLoop n rest2 acc2
      | _ => genericLoop n rest acc2

/-- The modifier loop of `_parse_baseclass` (before the `=`). -/
def modLoop : Nat → List FTok → List String → List (String × MetaPropVal) →
    R (List String × List (String × MetaPropVal))
  | 0, _, _, _ => .spin
  | n + 1, toks, bases, mps =>
    match toks with
    | [] => .err .stopIteration
    | .EQUALS :: rest => .ok (bases, mps) (.EQUALS :: rest)
    | _ =>
      (expectIdent toks).bind fun t r1 =>
      if t = "base" then
        (parseBases n r1).bind fun bs r2 => modLoop n r2 bs mps
      else if t = "color" then
        (expectTok .LPAREN r1).bind fun _ a =>
        (expectNum a).bind fun rv b =>
        (expectNum b).bind fun gv c2 =>
        (expectNum c2).bind fun bv d =>
        (expectTok .RPAREN d).bind fun _ e =>
          modLoop n e bases (upsert t (MetaPropVal.color rv gv bv) mps)
      else if t = "metadata" then
        (expectTok .LBRACE r1).bind fun _ a =>
        (mdLoop n a []).bind fun m b =>
        (expectTok .RBRACE b).bind fun _ c2 =>
          modLoop n c2 bases (upsert t (MetaPropVal.strMap m) mps)
      else
        match r1 with
        | [] => .err .stopIteration
        | .LPAREN :: _ =>
          (expectTok .LPAREN r1).bind fun _ a =>
          (genericLoop n a []).bind fun vs b =>
          (expectTok .RPAREN b).bind fun _ c2 =>
            modLoop n c2 bases (upsert t (MetaPropVal.toks vs) mps)
        | _ => modLoop n r1 bases (upsert t MetaPropVal.flag mps)

/-- Class body loop: I/O entries and property entries while the lookahead
is an identifier. -/
def bodyLoop : Nat → List FTok → List (String × IoEntry) → List (PVal × FProp) →
    R (List (String × IoEntry) × List (PVal × FProp))
  | 0, _, _, _ => .spin
  | n + 1, toks, io, props =>
    match toks with
    | [] => .err .stopIteration
    | .IDENTIFIER s :: rest =>
      if s = "input" ∨ s = "output" then
        (parseClassIo n (.IDENTIFIER s :: rest)).bind fun entry r2 =>
          bodyLoop n r2
            (match entry with | some kv => upsert kv.1 kv.2 io | Option.none => io) props
      else
        (parseClassParam n (.IDENTIFIER s :: rest)).bind fun kp r2 =>
          bodyLoop n r2 io (upsert kp.1 kp.2 props)
    | _ => .ok (io, props) toks

/-- `_parse_baseclass`: the full class definition. -/
def parseBaseclass (n : Nat) (toks : List FTok) : R ClassDef :=
  (match toks with
   | [] => R.err .stopIteration
   | .IDENTIFIER s :: rest => modLoop n (.IDENTIFIER s :: rest) [] []
   | _ => R.ok ([], []) toks
  ).bind fun bm r1 =>
  (expectTok .EQUALS r1).bind fun _ r2 =>
  (expectIdent r2).bind fun nm r3 =>
  (match r3 with
   | [] => R.err .stopIteration
   | .COLON :: r4 =>
     match r4 with
     | [] => R.err .stopIteration
     | .STRING _ :: _ => (parseJoinedString n r4).bind fun d r5 => R.ok (some d) r5
     | _ => R.ok Option.none r4
   | _ => R.ok Option.none r3
  ).bind fun docOpt r6 =>
  (expectTok .LBRACKET r6).bind fun _ r7 =>
  (bodyLoop n r7 [] []).bind fun ip r8 =>
  (expectTok .RBRACKET r8).bind fun _ r9 =>
  .ok { io := ip.1, props := ip.2, bases := bm.1, meta_props := bm.2,
        name := nm, doc := docOpt } r9

/-- `_parse_mapsize`. -/
def parseMapsize (toks : List FTok) : R (Int × Int) :=
  (expectTok .LPAREN toks).bind fun _ a =>
  (expectNum a).bind fun x b =>
  (expectTok .COMMA b).bind fun _ c2 =>
  (expectNum c2).bind fun y d =>
  (expectTok .RPAREN d).bind fun _ e => .ok (x, y) e

/-- `@entitygroup` brace-block loop (consumes the closing brace). -/
def egLoop : Nat → List FTok → List (String × String) → R (List (String × String))
  | 0, _, _ => .spin
  | n + 1, toks, acc =>
    match toks with
    | [] => .err .stopIteration
    | .RBRACE :: rest => .ok acc rest
    | _ =>
      (expectIdent toks).bind fun k a =>
      (expectTok .EQUALS a).bind fun _ b =>
      (expectIdent b).bind fun v c2 => egLoop n c2 (upsert k v acc)

/-- `_parse_entity_group`. -/
def parseEntityGroup (n : Nat) (toks : List FTok) : R EntityGroup :=
  (expectStr toks).bind fun nm r1 =>
  match r1 with
  | [] => .err .stopIteration
  | .LBRACE :: r2 => (egLoop n r2 []).bind fun m r3 => .ok ⟨nm, m⟩ r3
  | _ => .ok ⟨nm, []⟩ r1

/-- Merge a successfully parsed include into the parent Document
(source lines 241-245): classes/excludes/entity_groups extend, pragmas
overwrite, and the include name is recorded. -/
def mergeInclude (parent inc : Document) (nm : String) : Document :=
  { parent with
    classes := parent.classes ++ inc.classes
    pragmas := inc.pragmas.foldl (fun m kv => upsert kv.1 kv.2 m) parent.pragmas
    excludes := parent.excludes ++ inc.excludes
    entity_groups := parent.entity_groups ++ inc.entity_groups
    includes := parent.includes ++ [nm] }

/-- `_parse_include`: resolver not-found is silently skipped; otherwise the
nested parse runs (the `nested` callback) and its result is merged, its
failure propagated. -/
def parseInclude (nested : String → PRes Document) (res : Resolver)
    (toks : List FTok) (doc : Document) : R Document :=
  match toks with
  | .STRING nm :: rest =>
    match res nm with
    | Option.none => .ok doc rest
    | some content =>
      match nested content with
      | .ok inc => .ok (mergeInclude doc inc nm) rest
      | .err e => .err e
      | .spin => .spin
  | t :: _ => .err (.unexpected .STRING t)
  | [] => .err .stopIteration

/-- The top-level loop of `FGDParser.parse`, with the keyword dispatch of
source lines 216-233 (`@mapsize` compared case-sensitively, the others via
`.lower()`, class keywords by suffix, anything else silently ignored). -/
def topLoop (nested : String → PRes Document) (res : Resolver) :
    Nat → List FTok → Document → PRes Document
  | 0, _, _ => .spin
  | n + 1, toks, doc =>
    match toks with
    | [] => .ok doc
    | .EOF :: _ => .ok doc
    | .KEYWORD v :: rest =>
      if v = "@mapsize" then
        match parseMapsize rest with
        | .ok p r2 => topLoop nested res n r2
            { doc with pragmas := upsert "mapsize" p doc.pragmas }
        | .err e => .err e
        | .spin => .spin
      else if pyLower v = "@include" then
        match parseInclude nested res rest doc with
        | .ok d2 r2 => topLoop nested res n r2 d2
        | .err e => .err e
        | .spin => .spin
      else if pyLower v = "@exclude" then
        match expectIdent rest with
        | .ok s r2 => topLoop nested res n r2
            { doc with excludes := doc.excludes ++ [s] }
        | .err e => .err e
        | .spin => .spin
      else if pyLower v = "@entitygroup" then
        match parseEntityGroup n rest with
        | .ok g r2 => topLoop nested res n r2
            { doc with entity_groups := doc.entity_groups ++ [g] }
        | .err e => .err e
        | .spin => .spin
      else if strStarts v "@" = true ∧ strEnds (pyLower v) "class" = true then
        match parseBaseclass n rest with
        | .ok cd r2 => topLoop nested res n r2
            { doc with classes := doc.classes ++ [cd] }
        | .err e => .err e
        | .spin => .spin
      else topLoop nested res n rest doc
    | t :: _ => .err (.topUnexpected t)

/-- A whole parse run: lex the buffer, then run the top-level loop on an
empty Document.  The fuel also bounds the include-recursion depth. -/
def parseDoc : Nat → Resolver → String → PRes Document
  | 0, _, _ => .spin
  | d + 1, res, buf =>
    match lexAll (d + 1) buf with
    | .ok toks => topLoop (fun s => parseDoc d res s) res (d + 1) toks emptyDoc
    | .err e => .err e
    | .spin => .spin

/-- A resolver that finds nothing. -/
def res0 : Resolver := fun _ => Option.none

/- ## Theorems about the claims -/

/-- If no closing quote occurs at or after the current offset, the
string-scanning loop never terminates, at any fuel: the source's
`while True` advances the offset forever once the buffer is exhausted. -/
theorem scanString_noQuote_spin (buf : List Char) :
    ∀ (m off : Nat) (acc : List Char),
      (∀ j, off ≤ j → sym buf j ≠ some '\"') →
      scanString m buf off acc = PRes.spin := by
  intro m
  induction m with
  | zero => intro off acc _; rfl
  | succ k ih =>
    intro off acc h
    simp only [scanString]
    cases hg : sym buf off with
    | none =>
      exact ih (off + 1) acc fun j hj => h j (by omega)
    | some c =>
      have hc : ¬ c = '\"' := fun he => h off (Nat.le_refl off) (by rw [hg, he])
      show (if c = '\"' then PRes.ok (acc, off + 1)
            else scanString k buf (off + 1) (acc ++ [c])) = PRes.spin
      rw [if_neg hc]
      exact ih (off + 1) (acc ++ [c]) fun j hj => h j (by omega)

/-- Entering the string rule with a non-terminating scan diverges. -/
theorem lexLoop_quote_spin (buf : List Char) (off : Nat) (acc : List FTok) (m : Nat)
    (h0 : sym buf off = some '\"')
    (hs : scanString m buf (off + 1) [] = PRes.spin) :
    lexLoop (m + 1) buf off acc = PRes.spin := by
  simp [lexLoop, h0, hs]

/-- If no newline occurs at or after the current offset, the line-comment
loop never terminates, at any fuel. -/
theorem scanLineComment_noNewline_spin (buf : List Char) :
    ∀ (m off : Nat),
      (∀ j, off ≤ j → sym buf j ≠ some '\n') →
      scanLineComment m buf off = PRes.spin := by
  intro m
  induction m with
  | zero => intro off _; rfl
  | succ k ih =>
    intro off h
    have hc : optEq '\n' (sym buf off) = false := by
      cases hg : sym buf off with
      | none => rfl
      | some c =>
        have hne : ¬ c = '\n' := fun he => h off (Nat.le_refl off) (by rw [hg, he])
        simp [optEq, hne]
    simp only [scanLineComment, hc]
    simp only [Bool.false_eq_true, if_false]
    exact ih (off + 1) fun j hj => h j (by omega)

/-- Entering the line-comment rule with a non-terminating scan diverges. -/
theorem lexLoop_lineComment_spin (buf : List Char) (off : Nat) (acc : List FTok) (m : Nat)
    (h0 : sym buf off = some '/') (h1 : sym buf (off + 1) = some '/')
    (hs : scanLineComment m buf off = PRes.spin) :
    lexLoop (m + 1) buf off acc = PRes.spin := by
  simp [lexLoop, h0, h1, hs, pyIsSpace, pyIsDigit, pyIsIdent, optIs, optEq]

/-- C1: the spec requires that lexing a buffer with an unterminated string
literal terminates (LexicalError or end-of-stream).  The code violates
this: on the buffer `"abc` (opening quote, no closing quote) the
string-scanning loop runs forever — the model diverges at every fuel. -/
theorem c1_unterminated_string_loops_forever :
    ∀ n : Nat, lexAll n "\"abc" = PRes.spin := by
  have hq : ∀ j, 1 ≤ j → sym (("\"abc" : String).toList) j ≠ some '\"' := by
    intro j hj he
    rcases j with _ | _ | _ | _ | k
    · exact absurd hj (by decide)
    · exact absurd he (by decide)
    · exact absurd he (by decide)
    · exact absurd he (by decide)
    · exact Option.noConfusion he
  intro n
  match n with
  | 0 => rfl
  | m + 1 =>
    exact lexLoop_quote_spin _ 0 [] m (by decide)
      (scanString_noQuote_spin (("\"abc" : String).toList) m 1 [] hq)

/-- C2: a `//` comment is consumed and discarded, emitting no token — but
only when a newline follows.  When the comment runs to the end of the
buffer with no trailing newline (spec: "or end of buffer"), the comment
loop runs forever: the model diverges at every fuel on `// x`. -/
theorem c2_line_comment_no_newline_loops_forever :
    (∀ n : Nat, lexAll n "// x" = PRes.spin) ∧
    lexAll 100 "// x\nid" = PRes.ok [FTok.IDENTIFIER "id", FTok.EOF] := by
  constructor
  · have hq : ∀ j, 0 ≤ j → sym (("// x" : String).toList) j ≠ some '\n' := by
      intro j _ he
      rcases j with _ | _ | _ | _ | k
      · exact absurd he (by decide)
      · exact absurd he (by decide)
      · exact absurd he (by decide)
      · exact absurd he (by decide)
      · exact Option.noConfusion he
    intro n
    match n with
    | 0 => rfl
    | m + 1 =>
      exact lexLoop_lineComment_spin _ 0 [] m (by decide) (by decide)
        (scanLineComment_noNewline_spin (("// x" : String).toList) m 0 hq)
  · decide

/-- C3: on the buffer `5-3` the numeric rule's continuation condition
(digit, or `-` followed by a digit) consumes all of `5-3` into one
buffer, and Python's `int("5-3")` raises ValueError — no pair of numeric
tokens `5`, `-3` is produced. -/
theorem c3_digit_minus_digit_raises_valueerror :
    lexAll 20 "5-3" = PRes.err (Err.valueError "5-3") ∧
    pyInt ("5-3".toList) = Option.none := by
  exact ⟨by decide, by decide⟩

/- ### C4: Scenario 3 -/

def s4 : String := "@SolidClass base(Targetname) = func_test [ height(integer) : 0 ]"

def c4prop : FProp :=
  ⟨PVal.str "height", "integer", Option.none, [some (PVal.num 0)],
   Option.none, Option.none, Option.none⟩

def c4class : ClassDef :=
  ⟨[], [(PVal.str "height", c4prop)], ["Targetname"], [], "func_test", Option.none⟩

/-- The claim as stated: one class with bases ["Targetname"] whose
"height" property has type "integer", data [0], and an *empty* meta
mapping (i.e. a `meta` key holding an empty dict). -/
def c4ClaimHolds : Prop :=
  ∃ d c p, parseDoc 100 res0 s4 = PRes.ok d ∧ d.classes = [c] ∧
    c.bases = ["Targetname"] ∧
    lookupA (PVal.str "height") c.props = some p ∧
    p.type = "integer" ∧ p.data = [some (PVal.num 0)] ∧ p.meta = some []

/-- C4 (counterexample): the claim as stated is false — the parsed
property has *no* `meta` entry at all (`prop['meta']` is only assigned
when a bracketed modifier list is present), not an empty mapping. -/
theorem c4_counterexample : ¬ c4ClaimHolds := by
  rintro ⟨d, c, p, h1, h2, h3, h4, h5, h6, h7⟩
  have he : parseDoc 100 res0 s4 = PRes.ok ⟨[c4class], [], [], [], []⟩ := by decide
  rw [he] at h1
  injection h1 with h1
  subst h1
  have h2' : c4class = c := by injection h2
  subst h2'
  have h4' : lookupA (PVal.str "height") c4class.props = some c4prop := by decide
  rw [h4'] at h4
  injection h4 with h4
  subst h4
  exact Option.noConfusion h7

/-- C4 (amended): parsing Scenario 3 yields exactly one ClassDefinition
with bases ["Targetname"] and a "height" property with type "integer",
data [0], and an *absent* meta key (no modifier list was given). -/
theorem c4_amended_parse_result :
    parseDoc 100 res0 s4 = PRes.ok ⟨[c4class], [], [], [], []⟩ ∧
    c4class.bases = ["Targetname"] ∧
    lookupA (PVal.str "height") c4class.props = some c4prop ∧
    c4prop.type = "integer" ∧ c4prop.data = [some (PVal.num 0)] ∧
    c4prop.meta = Option.none := by
  exact ⟨by decide, rfl, by decide, rfl, rfl, rfl⟩

/-- C5: when the resolver reports not-found for an `@include` name, the
top-level step consumes exactly the keyword and the string, raises
nothing, and continues with the Document unchanged. -/
theorem c5_missing_include_skipped (nested : String → PRes Document) (res : Resolver)
    (n : Nat) (nm : String) (rest : List FTok) (doc : Document)
    (h : res nm = Option.none) :
    topLoop nested res (n + 1) (FTok.KEYWORD "@include" :: FTok.STRING nm :: rest) doc =
      topLoop nested res n rest doc := by
  simp only [topLoop]
  rw [if_neg (by decide : ¬("@include" : String) = "@mapsize")]
  rw [if_pos (by decide : pyLower "@include" = "@include")]
  simp only [parseInclude, h]

theorem c5_witness :
    res0 "missing.fgd" = Option.none ∧
    topLoop (fun _ => PRes.spin) res0 1
        [FTok.KEYWORD "@include", FTok.STRING "missing.fgd", FTok.EOF] emptyDoc =
      topLoop (fun _ => PRes.spin) res0 0 [FTok.EOF] emptyDoc :=
  ⟨rfl, c5_missing_include_skipped (fun _ => PRes.spin) res0 0 "missing.fgd"
    [FTok.EOF] emptyDoc rfl⟩

/-- C6: when the resolver finds the include and its nested parse raises
(lexical or syntactic error), the enclosing parse propagates that very
error and merges none of the include's partial results. -/
theorem c6_failed_include_propagates (nested : String → PRes Document) (res : Resolver)
    (n : Nat) (nm content : String) (e : Err) (rest : List FTok) (doc : Document)
    (h1 : res nm = some content) (h2 : nested content = PRes.err e) :
    topLoop nested res (n + 1) (FTok.KEYWORD "@include" :: FTok.STRING nm :: rest) doc =
      PRes.err e := by
  simp only [topLoop]
  rw [if_neg (by decide : ¬("@include" : String) = "@mapsize")]
  rw [if_pos (by decide : pyLower "@include" = "@include")]
  simp only [parseInclude, h1, h2]

def resC6 : Resolver := fun nm => if nm = "bad.fgd" then some "]" else Option.none

theorem c6_witness :
    resC6 "bad.fgd" = some "]" ∧
    parseDoc 20 resC6 "]" = PRes.err (Err.topUnexpected FTok.RBRACKET) ∧
    topLoop (fun s => parseDoc 20 resC6 s) resC6 1
        [FTok.KEYWORD "@include", FTok.STRING "bad.fgd", FTok.EOF] emptyDoc =
      PRes.err (Err.topUnexpected FTok.RBRACKET) :=
  ⟨by decide, by decide,
   c6_failed_include_propagates (fun s => parseDoc 20 resC6 s) resC6 0 "bad.fgd" "]"
     (Err.topUnexpected FTok.RBRACKET) [FTok.EOF] emptyDoc (by decide) (by decide)⟩

/-- C7: a top-level keyword that is not `@mapsize` (case-sensitive), not
`@include`/`@exclude`/`@entitygroup` (case-insensitive), and does not end
in "class" (case-insensitive) is consumed, raises nothing, and leaves the
Document untouched: the loop continues on the same Document. -/
theorem c7_unknown_keyword_ignored (nested : String → PRes Document) (res : Resolver)
    (n : Nat) (v : String) (rest : List FTok) (doc : Document)
    (h1 : v ≠ "@mapsize") (h2 : pyLower v ≠ "@include") (h3 : pyLower v ≠ "@exclude")
    (h4 : pyLower v ≠ "@entitygroup") (h5 : strEnds (pyLower v) "class" = false) :
    topLoop nested res (n + 1) (FTok.KEYWORD v :: rest) doc =
      topLoop nested res n rest doc := by
  have h5' : ¬(strStarts v "@" = true ∧ strEnds (pyLower v) "class" = true) := by
    rintro ⟨-, hc⟩
    rw [h5] at hc
    exact Bool.false_ne_true hc
  simp only [topLoop]
  rw [if_neg h1, if_neg h2, if_neg h3, if_neg h4, if_neg h5']

theorem c7_witness :
    ("@AutoVisGroup" : String) ≠ "@mapsize" ∧
    pyLower "@AutoVisGroup" ≠ "@include" ∧
    pyLower "@AutoVisGroup" ≠ "@exclude" ∧
    pyLower "@AutoVisGroup" ≠ "@entitygroup" ∧
    strEnds (pyLower "@AutoVisGroup") "class" = false ∧
    topLoop (fun _ => PRes.spin) res0 1
        [FTok.KEYWORD "@AutoVisGroup", FTok.EOF] emptyDoc =
      topLoop (fun _ => PRes.spin) res0 0 [FTok.EOF] emptyDoc :=
  ⟨by decide, by decide, by decide, by decide, by decide,
   c7_unknown_keyword_ignored (fun _ => PRes.spin) res0 0 "@AutoVisGroup" [FTok.EOF]
     emptyDoc (by decide) (by decide) (by decide) (by decide) (by decide)⟩

/-- The I/O argument loop consumes a run of identifier tokens and stops at
the closing paren. -/
theorem ioArgsLoop_consumes (args : List String) :
    ∀ (n : Nat) (acc : List String) (rest : List FTok), args.length < n →
      ioArgsLoop n (args.map FTok.IDENTIFIER ++ FTok.RPAREN :: rest) acc =
        R.ok (acc ++ args) (FTok.RPAREN :: rest) := by
  induction args with
  | nil =>
    intro n acc rest h
    match n, h with
    | n + 1, _ => simp [ioArgsLoop]
  | cons a as ih =>
    intro n acc rest h
    match n, h with
    | n + 1, h =>
      simp only [List.map_cons, List.cons_append, ioArgsLoop]
      rw [ih n (acc ++ [a]) rest (Nat.lt_of_succ_lt_succ h)]
      simp

/-- C8: an I/O entry whose argument list is followed by anything other
than a colon parses without error but is silently dropped: no `(name,
entry)` pair is produced for the io mapping, so the entry is recorded
only if the colon clause is present. -/
theorem c8_io_without_colon_dropped (n : Nat) (ioType nm : String) (args : List String)
    (t : FTok) (rest : List FTok) (hn : args.length < n) (ht : t ≠ FTok.COLON) :
    parseClassIo n (FTok.IDENTIFIER ioType :: FTok.IDENTIFIER nm :: FTok.LPAREN ::
        (args.map FTok.IDENTIFIER ++ FTok.RPAREN :: t :: rest)) =
      R.ok Option.none (t :: rest) := by
  have ha := ioArgsLoop_consumes args n [] (t :: rest) hn
  simp only [parseClassIo, expectIdent, R.bind_ok, expectTok, FTok.kind,
    reduceIte, ha, List.nil_append]
  cases t
  case COLON => exact absurd rfl ht
  all_goals rfl

theorem c8_witness :
    (["void"] : List String).length < 5 ∧ FTok.RBRACKET ≠ FTok.COLON ∧
    parseClassIo 5 [FTok.IDENTIFIER "input", FTok.IDENTIFIER "Foo", FTok.LPAREN,
        FTok.IDENTIFIER "void", FTok.RPAREN, FTok.RBRACKET] =
      R.ok Option.none [FTok.RBRACKET] :=
  ⟨by decide, by decide,
   c8_io_without_colon_dropped 5 "input" "Foo" ["void"] FTok.RBRACKET []
     (by decide) (by decide)⟩

/-- C9: parsing is deterministic — two runs of the parse on the same
buffer, buffer name and resolver yield structurally equal Documents.  The
embedding is a pure function of (fuel, resolver, buffer), so any two
successful results coincide. -/
theorem c9_parse_deterministic (n : Nat) (res : Resolver) (buf : String)
    (d1 d2 : Document)
    (h1 : parseDoc n res buf = PRes.ok d1) (h2 : parseDoc n res buf = PRes.ok d2) :
    d1 = d2 := by
  rw [h1] at h2
  injection h2

def c9doc : Document := ⟨[], ["foo"], [], [], []⟩

theorem c9_witness :
    parseDoc 50 res0 "@exclude foo" = PRes.ok c9doc ∧ c9doc = c9doc :=
  ⟨by decide,
   c9_parse_deterministic 50 res0 "@exclude foo" c9doc c9doc (by decide) (by decide)⟩

/-- C10 (counterexample): the claim states that for `@MapSize(16, 16)`
the parser raises no error.  In fact the keyword is silently ignored and
the following `(` token is then rejected by the top-level loop. -/
theorem c10_counterexample :
    parseDoc 100 res0 "@MapSize(16, 16)" = PRes.err (Err.topUnexpected FTok.LPAREN) :=
  by decide

/-- C10 (amended): `@mapsize` is matched case-sensitively while
`@include`/`@exclude`/`@entitygroup` are matched case-insensitively.  The
`@MapSize` keyword itself falls into the silent-ignore branch (no pragma
recorded, Document unchanged), but its trailing `(16, 16)` tokens then
raise a top-level syntax error; `@EXCLUDE`, `@INCLUDE` and `@ENTITYGROUP`
are processed as their lowercase forms. -/
theorem c10_amended_case_sensitivity :
    (∀ (nested : String → PRes Document) (res : Resolver) (n : Nat)
       (rest : List FTok) (doc : Document),
       topLoop nested res (n + 1) (FTok.KEYWORD "@MapSize" :: rest) doc =
         topLoop nested res n rest doc) ∧
    parseDoc 100 res0 "@MapSize(16, 16)" = PRes.err (Err.topUnexpected FTok.LPAREN) ∧
    parseDoc 100 res0 "@EXCLUDE foo" = PRes.ok ⟨[], ["foo"], [], [], []⟩ ∧
    parseDoc 100 res0 "@INCLUDE \"x\"" = PRes.ok emptyDoc ∧
    parseDoc 100 res0 "@ENTITYGROUP \"g\"" = PRes.ok ⟨[], [], [], [], [⟨"g", []⟩]⟩ :=
  ⟨fun _ _ _ _ _ => rfl, by decide, by decide, by decide, by decide⟩

end FGD
